import Mathlib

set_option maxRecDepth 4000

/-!
Verification of the Neutron SDK HTTP transport core and transaction workflow.

The definitions below are a shallow embedding of the TypeScript sources:
* `HttpClient` (client.ts): token lifecycle, request signing, and the
  retry/backoff request loop;
* `TransactionsResource` (resources/transactions.ts, the variant with
  sanitized path parameters, a throwing `cancel`, and an SSE `subscribe`):
  `waitForCompletion`, `subscribe`, `cancel`;
* `NeutronApiError` (errors.ts) classification flags;
* the `FinalStates` constant (utils.ts).

Network effects are mocked: a request execution is a pure function of the
client state, the sequence of transport outcomes the server would produce
(one per dispatched attempt), and the authentication response the token
endpoint would return.  Observable effects (backoff sleeps, authentication
calls, HTTP dispatches, diagnostic log lines) are returned as explicit
traces.  `Date.now()` is modelled as a constant `now` during one call;
inside `waitForCompletion` elapsed time advances by the polling interval
per iteration.  JavaScript numbers in the modelled ranges are exact, so
they are embedded as `Nat`/`Int`; the 32-bit words of SHA-256 are `Nat`
reduced modulo `2 ^ 32`.
-/

/-! ## Client state and token lifecycle (client.ts) -/

def TOKEN_REFRESH_BUFFER_MS : Int := 60000

def DEFAULT_TIMEOUT : Int := 30000

def DEFAULT_MAX_RETRIES : Nat := 2

/-- Mutable fields of `HttpClient`: `accessToken`, `accountId`, `tokenExpiry`.
`tokenExpiry` starts at 0; the token fields start as `null` (`none`). -/
structure ClientState where
  accessToken : Option String
  accountId : Option String
  tokenExpiry : Int
deriving Repr, DecidableEq

/-- Body of a successful authentication response: `{accountId, accessToken, expiredAt}`.
`expiredAt` is embedded as the normalized epoch-ms value (the source accepts a
number or an ISO string and normalizes to epoch ms). -/
structure AuthResponse where
  accountId : String
  accessToken : String
  expiredAt : Int
deriving Repr, DecidableEq

/-- `HttpClient.isTokenValid`: token and account present, and
`Date.now() < tokenExpiry - TOKEN_REFRESH_BUFFER_MS`. -/
def isTokenValid (now : Int) (s : ClientState) : Bool :=
  s.accessToken.isSome && s.accountId.isSome &&
    decide (now < s.tokenExpiry - TOKEN_REFRESH_BUFFER_MS)

/-- Effect of a successful `authenticate()` on the client state: the session
record is replaced from the parsed response. -/
def applyAuth (a : AuthResponse) (_s : ClientState) : ClientState :=
  { accessToken := some a.accessToken, accountId := some a.accountId,
    tokenExpiry := a.expiredAt }

/-- `HttpClient.ensureAuth`: authenticate only when the token is invalid.
`a` is the response the token endpoint would return if called (the success
path; a failing `authenticate` throws and is modelled in `authenticate`
below).  The second component counts authentication requests issued. -/
def ensureAuth (now : Int) (a : AuthResponse) (s : ClientState) : ClientState × Nat :=
  if isTokenValid now s then (s, 0) else (applyAuth a s, 1)

/-! ## Authentication call and debug logging (client.ts) -/

/-- Raw JSON body of the token endpoint: the auth payload may come wrapped in
a `{data: ...}` envelope (`raw.data ?? raw`). -/
inductive AuthRaw where
  | envelope (a : AuthResponse)
  | bare (a : AuthResponse)
deriving Repr, DecidableEq

/-- `raw.data ?? raw` unwrapping. -/
def AuthRaw.unwrap : AuthRaw → AuthResponse
  | .envelope a => a
  | .bare a => a

/-- Outcome of the raw fetch inside `authenticate()`: an ok response with a
parsed JSON body, or a non-ok response whose body yields an optional
`error`/`message` string. -/
inductive AuthFetchOutcome where
  | ok (raw : AuthRaw)
  | errorResp (status : Nat) (errMsg : Option String)
deriving Repr, DecidableEq

/-- `HttpClient.log`: emits one line `[neutron-sdk <ts>] <message><extra>`
when `debug` is set, nothing otherwise.  `extra` is the already-stringified
optional data argument. -/
def log (debug : Bool) (ts message : String) (extra : Option String) : List String :=
  if !debug then []
  else [s!"[neutron-sdk {ts}] {message}" ++
          (match extra with
           | some d => s!" {d}"
           | none => "")]

/-- Result of one `authenticate()` call: the thrown-or-returned value, the
client state after the call, and the diagnostic lines emitted during it. -/
structure AuthRunResult where
  result : Except String AuthResponse
  state : ClientState
  logs : List String
deriving Repr

/-- `HttpClient.authenticate`: on a non-ok response throw a `NeutronAuthError`
with the body's `error`/`message` or a generic text; on success unwrap the
optional envelope, store the session, and return the result.  In the source,
`this.log("Authenticated", { accountId })` appears after the
`return result;` statement, so it is unreachable and no diagnostic line is
ever emitted by this method, whatever `debug` is. -/
def authenticate (debug : Bool) (ts : String) (outcome : AuthFetchOutcome)
    (st : ClientState) : AuthRunResult :=
  match outcome with
  | .errorResp status errMsg =>
      { result := .error (errMsg.getD s!"Authentication failed ({status})"),
        state := st, logs := [] }
  | .ok raw =>
      let result := raw.unwrap
      { result := .ok result, state := applyAuth result st, logs := [] }

/-! ## Errors (errors.ts) -/

/-- `NeutronApiError`: status plus raw body (the body is kept as an opaque
string here; `message`/`code` extraction is not needed by the claims). -/
structure ApiError where
  status : Nat
  body : String
deriving Repr, DecidableEq

/-- `NeutronApiError.isRetryable`: `status === 429 || status >= 500`. -/
def ApiError.isRetryable (e : ApiError) : Bool :=
  e.status == 429 || decide (500 ≤ e.status)

/-- `NeutronApiError.isRateLimited`: `status === 429`. -/
def ApiError.isRateLimited (e : ApiError) : Bool :=
  e.status == 429

/-- `NeutronApiError.isAuthError`: `status === 401 || status === 403`. -/
def ApiError.isAuthError (e : ApiError) : Bool :=
  e.status == 401 || e.status == 403

/-! ## The request retry loop (client.ts) -/

/-- Outcome of one `rawFetch` dispatch, as the mocked transport produces it:
an HTTP response with a status and a parsed body, or an abort of the
in-flight call by the per-call timer (which `rawFetch` surfaces as a
`NeutronTimeoutError`). -/
inductive FetchResult where
  | response (status : Nat) (body : String)
  | timeout
deriving Repr, DecidableEq

/-- Errors `request` can throw: an API error or a timeout carrying the
configured duration. -/
inductive ReqError where
  | api (e : ApiError)
  | timeoutErr (ms : Int)
deriving Repr, DecidableEq

/-- Result of a `request` execution.  `stuck` is a model artifact only: the
mocked response list ran out (a real fetch always yields an outcome). -/
inductive ReqOutcome where
  | ok (body : String)
  | err (e : ReqError)
  | stuck
deriving Repr, DecidableEq

/-- Observable trace of one `request` execution: final outcome, backoff
sleeps in milliseconds in order, authentication requests issued, HTTP
dispatches performed, and the final client state. -/
structure ReqResult where
  outcome : ReqOutcome
  delays : List Nat
  authCalls : Nat
  fetches : Nat
  final : ClientState
deriving Repr, DecidableEq

/-- The `fetch` spec's `Response.ok`: status in the range 200–299. -/
def responseOk (status : Nat) : Bool :=
  decide (200 ≤ status ∧ status < 300)

/-- The `this.accessToken = null` invalidation performed on a 401. -/
def clearToken (s : ClientState) : ClientState :=
  { s with accessToken := none }

/-- Entry of one loop iteration of `request`: when `attempt > 0`, sleep
`2 ^ (attempt - 1) * 1000` ms, then re-authenticate if the token went stale.
Returns the state afterwards, the sleeps and the authentication calls. -/
def attemptEntry (now : Int) (auth : AuthResponse) (attempt : Nat)
    (st : ClientState) : ClientState × List Nat × Nat :=
  if attempt > 0 then
    let d := 2 ^ (attempt - 1) * 1000
    if isTokenValid now st then (st, [d], 0) else (applyAuth auth st, [d], 1)
  else (st, [], 0)

/-- The `for (let attempt = 0; attempt <= this.maxRetries; attempt++)` loop of
`HttpClient.request`.  `remaining` counts the iterations left
(`maxRetries + 1 - attempt`), which makes the recursion structural; `attempt`
is the loop counter of the source.  `lastError` mirrors the `lastError`
variable; when the loop ends it is thrown.  One mocked transport outcome is
consumed per dispatched attempt. -/
def requestGo (timeout : Int) (maxRetries : Nat) (now : Int) (auth : AuthResponse) :
    Nat → Nat → ClientState → Option ApiError → List FetchResult → ReqResult
  | 0, _, st, lastError, _ =>
      { outcome := match lastError with
                   | some e => .err (.api e)
                   | none => .stuck,
        delays := [], authCalls := 0, fetches := 0, final := st }
  | r + 1, attempt, st, lastError, resps =>
      let e := attemptEntry now auth attempt st
      match resps with
      | [] =>
          { outcome := .stuck, delays := e.2.1, authCalls := e.2.2, fetches := 0,
            final := e.1 }
      | .timeout :: _ =>
          { outcome := .err (.timeoutErr timeout), delays := e.2.1,
            authCalls := e.2.2, fetches := 1, final := e.1 }
      | .response status body :: rest =>
          if responseOk status then
            { outcome := .ok body, delays := e.2.1, authCalls := e.2.2,
              fetches := 1, final := e.1 }
          else
            let apiError : ApiError := ⟨status, body⟩
            if status = 401 ∧ attempt < maxRetries then
              let res := (requestGo timeout maxRetries now auth r (attempt + 1)
                (clearToken e.1) (some apiError) rest)
              { res with
                delays := e.2.1 ++ res.delays
                authCalls := e.2.2 + res.authCalls
                fetches := 1 + res.fetches }
            else if apiError.isRetryable = true ∧ attempt < maxRetries then
              let res := (requestGo timeout maxRetries now auth r (attempt + 1)
                e.1 (some apiError) rest)
              { res with
                delays := e.2.1 ++ res.delays
                authCalls := e.2.2 + res.authCalls
                fetches := 1 + res.fetches }
            else
              { outcome := .err (.api apiError), delays := e.2.1,
                authCalls := e.2.2, fetches := 1, final := e.1 }

/-- `HttpClient.request`: `ensureAuth`, then the retry loop with attempts
`0 .. maxRetries` inclusive. -/
def request (timeout : Int) (maxRetries : Nat) (now : Int) (auth : AuthResponse)
    (st : ClientState) (resps : List FetchResult) : ReqResult :=
  let ea := ensureAuth now auth st
  let res := requestGo timeout maxRetries now auth (maxRetries + 1) 0 ea.1 none resps
  { res with authCalls := ea.2 + res.authCalls }

/-- A client state whose token is valid at `now = 0`. -/
def validState : ClientState :=
  ⟨some "tok", some "acct", 10 ^ 9⟩

/-- A fixed authentication response used to instantiate mocked runs. -/
def authR : AuthResponse :=
  ⟨"acct", "tok2", 10 ^ 9⟩

/-! ## Transactions resource (resources/transactions.ts) -/

/-- Transaction record, reduced to the lifecycle state field `txnState`
(the only field `waitForCompletion` inspects). -/
structure Transaction where
  txnState : String
deriving Repr, DecidableEq

/-- Local `FINAL_STATES` list of `waitForCompletion`. -/
def FINAL_STATES : List String :=
  ["completed", "failed", "expired", "rejected", "error", "usercanceled"]

/-- Exported `FinalStates` constant of utils.ts (documented as the terminal
transaction states). -/
def FinalStates : List String :=
  ["completed", "expired", "rejected", "error", "usercanceled"]

/-- Outcome of a `waitForCompletion` run. `stuck` is a model artifact: the
mocked list of polled transactions ran out while the loop wanted to poll. -/
inductive WfcOutcome where
  | done (txn : Transaction)
  | timedOut (msg : String)
  | stuck
deriving Repr, DecidableEq

/-- Observable trace of a `waitForCompletion` run: the outcome, the states
passed to `onStateChange` in invocation order, and the number of polls. -/
structure WfcResult where
  outcome : WfcOutcome
  callbacks : List String
  polls : Nat
deriving Repr, DecidableEq

/-- The `while (Date.now() - start < timeout)` loop of `waitForCompletion`.
`txns` is the mocked sequence of `this.get(txnId)` results, one per poll;
`elapsed` is the time since `start` (polls are instantaneous in the model,
each sleep advances time by `intervalMs`); `lastState` mirrors the
`lastState` variable, initially the empty string. -/
def waitForCompletionGo (txnId : String) (intervalMs timeoutMs : Int) :
    List Transaction → Int → String → WfcResult
  | txns, elapsed, lastState =>
    if elapsed < timeoutMs then
      match txns with
      | [] => { outcome := .stuck, callbacks := [], polls := 0 }
      | txn :: rest =>
          let cbs := if txn.txnState ≠ lastState then [txn.txnState] else []
          let lastState' := if txn.txnState ≠ lastState then txn.txnState else lastState
          if FINAL_STATES.contains txn.txnState then
            { outcome := .done txn, callbacks := cbs, polls := 1 }
          else
            let res := (waitForCompletionGo txnId intervalMs timeoutMs rest
              (elapsed + intervalMs) lastState')
            { outcome := res.outcome, callbacks := cbs ++ res.callbacks,
              polls := 1 + res.polls }
    else
      { outcome := .timedOut s!"Transaction {txnId} did not complete within {timeoutMs}ms",
        callbacks := [], polls := 0 }

/-- `TransactionsResource.waitForCompletion` with explicit
`intervalMs`/`timeoutMs` options (source defaults: 3000 and 300000);
`lastState` starts as `""`. -/
def waitForCompletion (txnId : String) (intervalMs timeoutMs : Int)
    (txns : List Transaction) : WfcResult :=
  waitForCompletionGo txnId intervalMs timeoutMs txns 0 ""

/-- `TransactionsResource.cancel`: unconditionally throws; the transaction id
is ignored, no HTTP request is issued and the client state is untouched. -/
def cancel (st : ClientState) (txnId : String) :
    ClientState × List (String × String) × Except String Transaction :=
  (st, [],
   .error "transactions.cancel() is not available. Unconfirmed transactions expire automatically.")

/-! ## Streaming subscribe (resources/transactions.ts) -/

/-- Case-insensitive hexadecimal digit, as matched by `[0-9a-f]` under the
`/i` flag. -/
def isHexDigitCI (c : Char) : Bool :=
  c.isDigit || ('a' ≤ c && c ≤ 'f') || ('A' ≤ c && c ≤ 'F')

/-- Consume exactly `n` hex digits from the front, returning the remainder. -/
def hexRun : Nat → List Char → Option (List Char)
  | 0, rest => some rest
  | _ + 1, [] => none
  | n + 1, c :: rest => if isHexDigitCI c then hexRun n rest else none

/-- Match hyphen-separated hex groups of the given sizes against the whole
character list. -/
def matchGroups : List Nat → List Char → Bool
  | [], cs => cs.isEmpty
  | n :: ns, cs =>
      match hexRun n cs with
      | none => false
      | some rest =>
          match ns with
          | [] => rest.isEmpty
          | _ :: _ =>
              match rest with
              | '-' :: rest2 => matchGroups ns rest2
              | _ => false

/-- The `UUID_RE` test of `subscribe`:
`^[0-9a-f]{8}-[0-9a-f]{4}-[0-9a-f]{4}-[0-9a-f]{4}-[0-9a-f]{12}$` with `/i`. -/
def uuidTest (s : String) : Bool :=
  matchGroups [8, 4, 4, 4, 12] s.toList

/-- Connection parameters `subscribe` hands to `fetch` once validation
passed: the SSE URL and the clamped timeout given to `AbortSignal.timeout`. -/
structure SubscribeConn where
  url : String
  effectiveTimeout : Int
deriving Repr, DecidableEq

/-- The clamp `Math.min(Math.max(timeoutMs, 5_000), 300_000)`. -/
def clampTimeout (timeoutMs : Int) : Int :=
  min (max timeoutMs 5000) 300000

/-- Prefix of `TransactionsResource.subscribe` up to establishing the SSE
connection: reject a non-UUID identifier before any connection, otherwise
connect with the clamped timeout. -/
def subscribe (baseUrl transactionId : String) (timeoutMs : Int) :
    Except String SubscribeConn :=
  if !uuidTest transactionId then
    .error "Invalid transactionId: must be a UUID."
  else
    .ok { url := baseUrl ++ "/api/v2/events/stream?transactionId=" ++ transactionId,
          effectiveTimeout := clampTimeout timeoutMs }

/-! ## SHA-256, HMAC and the request signature (client.ts `generateSignature`)

Bytes are `Nat` values below 256; 32-bit words are `Nat` values reduced
modulo `2 ^ 32`.  The implementation follows FIPS 180-4 / RFC 2104, which
is what `crypto.createHmac("sha256", secret)` computes. -/

def UINT32_MOD : Nat := 2 ^ 32

/-- 32-bit wrapping addition. -/
def add32 (a b : Nat) : Nat := (a + b) % UINT32_MOD

/-- 32-bit right rotation (for `x < 2 ^ 32`). -/
def rotr32 (n x : Nat) : Nat :=
  (x >>> n) ||| ((x &&& (2 ^ n - 1)) <<< (32 - n))

/-- Bitwise complement on 32 bits. -/
def not32 (x : Nat) : Nat := x ^^^ (UINT32_MOD - 1)

def bigSigma0 (x : Nat) : Nat := rotr32 2 x ^^^ rotr32 13 x ^^^ rotr32 22 x

def bigSigma1 (x : Nat) : Nat := rotr32 6 x ^^^ rotr32 11 x ^^^ rotr32 25 x

def smallSigma0 (x : Nat) : Nat := rotr32 7 x ^^^ rotr32 18 x ^^^ (x >>> 3)

def smallSigma1 (x : Nat) : Nat := rotr32 17 x ^^^ rotr32 19 x ^^^ (x >>> 10)

def chFn (x y z : Nat) : Nat := (x &&& y) ^^^ (not32 x &&& z)

def majFn (x y z : Nat) : Nat := (x &&& y) ^^^ (x &&& z) ^^^ (y &&& z)

/-- The 64 SHA-256 round constants (FIPS 180-4 §4.2.2, written in decimal). -/
def sha256K : List Nat :=
  [1116352408, 1899447441, 3049323471, 3921009573, 961987163,
   1508970993, 2453635748, 2870763221, 3624381080, 310598401,
   607225278, 1426881987, 1925078388, 2162078206, 2614888103,
   3248222580, 3835390401, 4022224774, 264347078, 604807628,
   770255983, 1249150122, 1555081692, 1996064986, 2554220882,
   2821834349, 2952996808, 3210313671, 3336571891, 3584528711,
   113926993, 338241895, 666307205, 773529912, 1294757372,
   1396182291, 1695183700, 1986661051, 2177026350, 2456956037,
   2730485921, 2820302411, 3259730800, 3345764771, 3516065817,
   3600352804, 4094571909, 275423344, 430227734, 506948616,
   659060556, 883997877, 958139571, 1322822218, 1537002063,
   1747873779, 1955562222, 2024104815, 2227730452, 2361852424,
   2428436474, 2756734187, 3204031479, 3329325298]

/-- Working state of the compression function: registers a–h. -/
structure Hash8 where
  a : Nat
  b : Nat
  c : Nat
  d : Nat
  e : Nat
  f : Nat
  g : Nat
  h : Nat
deriving Repr, DecidableEq

/-- Initial hash value H(0). -/
def sha256Init : Hash8 :=
  ⟨1779033703, 3144134277, 1013904242, 2773480762,
   1359893119, 2600822924, 528734635, 1541459225⟩

/-- Big-endian 64-bit length field. -/
def u64be (n : Nat) : List Nat :=
  [(n >>> 56) % 256, (n >>> 48) % 256, (n >>> 40) % 256, (n >>> 32) % 256,
   (n >>> 24) % 256, (n >>> 16) % 256, (n >>> 8) % 256, n % 256]

/-- Big-endian bytes of a 32-bit word. -/
def wordToBytes (w : Nat) : List Nat :=
  [(w >>> 24) % 256, (w >>> 16) % 256, (w >>> 8) % 256, w % 256]

/-- Merkle–Damgård padding: append `0x80`, zeros to 56 mod 64, then the
bit length as 8 big-endian bytes. -/
def padMessage (msg : List Nat) : List Nat :=
  let len := msg.length
  msg ++ [0x80] ++ List.replicate ((119 - len % 64) % 64) 0 ++ u64be (len * 8)

/-- Split into 64-byte blocks, with a structural fuel argument so that the
recursion reduces definitionally; `fuel ≥ l.length` always holds at the
call sites, so the fuel-exhaustion branch is unreachable. -/
def chunks64Aux : Nat → List Nat → List (List Nat)
  | _, [] => []
  | 0, _ :: _ => []
  | fuel + 1, b :: l => ((b :: l).take 64) :: chunks64Aux fuel ((b :: l).drop 64)

/-- Split into 64-byte blocks. -/
def chunks64 (l : List Nat) : List (List Nat) :=
  chunks64Aux l.length l

/-- Big-endian 32-bit words of a block (byte values are taken mod 256). -/
def bytesToWords : List Nat → List Nat
  | b0 :: b1 :: b2 :: b3 :: rest =>
      (((b0 % 256) <<< 24) + ((b1 % 256) <<< 16) + ((b2 % 256) <<< 8) + b3 % 256)
        :: bytesToWords rest
  | _ => []

/-- Extend the 16 block words to the 64-entry message schedule. -/
def messageSchedule (w16 : List Nat) : List Nat :=
  (List.range 48).foldl
    (fun w _ =>
      let t := w.length
      w ++ [add32 (add32 (smallSigma1 (w.getD (t - 2) 0)) (w.getD (t - 7) 0))
              (add32 (smallSigma0 (w.getD (t - 15) 0)) (w.getD (t - 16) 0))])
    w16

/-- One compression round. -/
def sha256Round (s : Hash8) (kw : Nat × Nat) : Hash8 :=
  let t1 := add32 s.h (add32 (bigSigma1 s.e) (add32 (chFn s.e s.f s.g) (add32 kw.1 kw.2)))
  let t2 := add32 (bigSigma0 s.a) (majFn s.a s.b s.c)
  ⟨add32 t1 t2, s.a, s.b, s.c, add32 s.d t1, s.e, s.f, s.g⟩

/-- Compress one 64-byte block into the running hash. -/
def compressBlock (s : Hash8) (block : List Nat) : Hash8 :=
  let w := messageSchedule (bytesToWords block)
  let t := (sha256K.zip w).foldl sha256Round s
  ⟨add32 s.a t.a, add32 s.b t.b, add32 s.c t.c, add32 s.d t.d,
   add32 s.e t.e, add32 s.f t.f, add32 s.g t.g, add32 s.h t.h⟩

/-- SHA-256 of a byte list, as a 32-byte list. -/
def sha256 (msg : List Nat) : List Nat :=
  let s := (chunks64 (padMessage msg)).foldl compressBlock sha256Init
  wordToBytes s.a ++ wordToBytes s.b ++ wordToBytes s.c ++ wordToBytes s.d ++
    wordToBytes s.e ++ wordToBytes s.f ++ wordToBytes s.g ++ wordToBytes s.h

/-- HMAC-SHA256 (RFC 2104): keys longer than the 64-byte block size are
first hashed, the key is zero-padded to the block size, and the digest is
`H((K ⊕ opad) ∥ H((K ⊕ ipad) ∥ msg))`. -/
def hmacSha256 (key msg : List Nat) : List Nat :=
  let k0 := if key.length > 64 then sha256 key else key
  let k1 := k0 ++ List.replicate (64 - k0.length) 0
  let ipadKey := k1.map (fun b => b ^^^ 0x36)
  let opadKey := k1.map (fun b => b ^^^ 0x5c)
  sha256 (opadKey ++ sha256 (ipadKey ++ msg))

/-- Lowercase hexadecimal alphabet: digits `0`-`9` then letters `a`-`f`. -/
def hexChars : List Char :=
  (List.range 16).map
    (fun n => if n < 10 then Char.ofNat (48 + n) else Char.ofNat (87 + n))

/-- Lowercase-hex rendering of a byte list (`digest("hex")`). -/
def hexDigest (bytes : List Nat) : String :=
  String.mk (bytes.foldr
    (fun b acc => hexChars.getD (b / 16 % 16) '0' :: hexChars.getD (b % 16) '0' :: acc)
    [])

/-- UTF-8 bytes of the literal `"&payload="`. -/
def ampPayloadEq : List Nat :=
  [38, 112, 97, 121, 108, 111, 97, 100, 61]

/-- The string `` `${this.apiKey}&payload=${payload}` `` as bytes. -/
def stringToSign (apiKey payload : List Nat) : List Nat :=
  apiKey ++ ampPayloadEq ++ payload

/-- `HttpClient.generateSignature`: lowercase-hex HMAC-SHA256 of
`{apiKey}&payload={payload}` keyed by the API secret.  Strings are taken as
their UTF-8 byte lists. -/
def generateSignature (apiKey apiSecret payload : List Nat) : String :=
  hexDigest (hmacSha256 apiSecret (stringToSign apiKey payload))

/-! ## Validation of the hash embedding (FIPS 180-4 / RFC 4231 test vectors) -/

/-- FIPS 180-4 test vector: SHA-256 of `"abc"`. -/
theorem sha256_abc :
    hexDigest (sha256 [97, 98, 99])
      = "ba7816bf8f01cfea414140de5dae2223b00361a396177a9cb410ff61f20015ad" := by
  decide

/-- SHA-256 of the empty message. -/
theorem sha256_empty :
    hexDigest (sha256 [])
      = "e3b0c44298fc1c149afbf4c8996fb92427ae41e4649b934ca495991b7852b855" := by
  decide

/-- RFC 4231 test case 1 for HMAC-SHA256. -/
theorem hmac_rfc4231_tc1 :
    hexDigest (hmacSha256 (List.replicate 20 0x0b) [72, 105, 32, 84, 104, 101, 114, 101])
      = "b0344c61d8db38535ca8afceaf0bf12b881dc200c9833da726e9376c2e32cff7" := by
  decide

/-- RFC 4231 test case 6: a key longer than the block size is hashed first. -/
theorem hmac_rfc4231_tc6 :
    hexDigest (hmacSha256 (List.replicate 131 0xaa)
        ("Test Using Larger Than Block-Size Key - Hash Key First".toList.map Char.toNat))
      = "60e431591ee0b67f0d8a26aacbf5b77f8e0bc6213728c5140546040f0ee37f54" := by
  decide

/-! ## Step lemmas for the request loop -/

/-- Exhausted loop: the recorded `lastError` is thrown. -/
theorem requestGo_zero (t : Int) (m : Nat) (now : Int) (auth : AuthResponse)
    (a : Nat) (st : ClientState) (le : Option ApiError) (resps : List FetchResult) :
    requestGo t m now auth 0 a st le resps
      = { outcome := match le with
                     | some e => .err (.api e)
                     | none => .stuck,
          delays := [], authCalls := 0, fetches := 0, final := st } := rfl

/-- Timeout on the dispatched attempt: a `NeutronTimeoutError` carrying the
configured duration propagates; nothing further happens. -/
theorem requestGo_timeout (t : Int) (m : Nat) (now : Int) (auth : AuthResponse)
    (r a : Nat) (st : ClientState) (le : Option ApiError) (rest : List FetchResult) :
    requestGo t m now auth (r + 1) a st le (.timeout :: rest)
      = { outcome := .err (.timeoutErr t),
          delays := (attemptEntry now auth a st).2.1,
          authCalls := (attemptEntry now auth a st).2.2, fetches := 1,
          final := (attemptEntry now auth a st).1 } := rfl

/-- A 2xx response returns its parsed body. -/
theorem requestGo_ok (t : Int) (m : Nat) (now : Int) (auth : AuthResponse)
    (r a : Nat) (st : ClientState) (le : Option ApiError) (status : Nat)
    (body : String) (rest : List FetchResult) (hok : responseOk status = true) :
    requestGo t m now auth (r + 1) a st le (.response status body :: rest)
      = { outcome := .ok body,
          delays := (attemptEntry now auth a st).2.1,
          authCalls := (attemptEntry now auth a st).2.2, fetches := 1,
          final := (attemptEntry now auth a st).1 } := by
  simp only [requestGo, hok]
  rfl

/-- A 401 with attempts remaining clears the cached access token and
continues the loop. -/
theorem requestGo_401 (t : Int) (m : Nat) (now : Int) (auth : AuthResponse)
    (r a : Nat) (st : ClientState) (le : Option ApiError) (body : String)
    (rest : List FetchResult) (hlt : a < m) :
    requestGo t m now auth (r + 1) a st le (.response 401 body :: rest)
      = (let res := (requestGo t m now auth r (a + 1)
          (clearToken (attemptEntry now auth a st).1)
          (some ⟨401, body⟩) rest)
         { outcome := res.outcome,
           delays := (attemptEntry now auth a st).2.1 ++ res.delays,
           authCalls := (attemptEntry now auth a st).2.2 + res.authCalls,
           fetches := 1 + res.fetches, final := res.final }) := by
  have hok : responseOk 401 = false := by decide
  simp only [requestGo, hok, Bool.false_eq_true, if_false]
  simp [hlt]

/-- A retryable (429 or 5xx) response with attempts remaining continues the
loop with the client state unchanged. -/
theorem requestGo_retryable (t : Int) (m : Nat) (now : Int) (auth : AuthResponse)
    (r a : Nat) (st : ClientState) (le : Option ApiError) (status : Nat)
    (body : String) (rest : List FetchResult)
    (hs : status = 429 ∨ 500 ≤ status) (hlt : a < m) :
    requestGo t m now auth (r + 1) a st le (.response status body :: rest)
      = (let res := (requestGo t m now auth r (a + 1)
          (attemptEntry now auth a st).1 (some ⟨status, body⟩) rest)
         { outcome := res.outcome,
           delays := (attemptEntry now auth a st).2.1 ++ res.delays,
           authCalls := (attemptEntry now auth a st).2.2 + res.authCalls,
           fetches := 1 + res.fetches, final := res.final }) := by
  have hok : responseOk status = false := by
    simp only [responseOk, decide_eq_false_iff_not]
    omega
  have h401 : ¬(status = 401 ∧ a < m) := by
    rintro ⟨h, -⟩
    omega
  have hretry : ApiError.isRetryable ⟨status, body⟩ = true := by
    simp only [ApiError.isRetryable, Bool.or_eq_true, beq_iff_eq, decide_eq_true_eq]
    omega
  simp only [requestGo, hok, Bool.false_eq_true, if_false, if_neg h401]
  simp [hretry, hlt]

/-- A non-2xx response that is neither a 401-with-attempts-remaining nor
retryable-with-attempts-remaining throws its `ApiError` at once. -/
theorem requestGo_throw (t : Int) (m : Nat) (now : Int) (auth : AuthResponse)
    (r a : Nat) (st : ClientState) (le : Option ApiError) (status : Nat)
    (body : String) (rest : List FetchResult)
    (hok : responseOk status = false)
    (h401 : ¬(status = 401 ∧ a < m))
    (hretry : ¬(ApiError.isRetryable ⟨status, body⟩ = true ∧ a < m)) :
    requestGo t m now auth (r + 1) a st le (.response status body :: rest)
      = { outcome := .err (.api ⟨status, body⟩),
          delays := (attemptEntry now auth a st).2.1,
          authCalls := (attemptEntry now auth a st).2.2, fetches := 1,
          final := (attemptEntry now auth a st).1 } := by
  simp only [requestGo, hok, Bool.false_eq_true, if_false, if_neg h401,
    if_neg hretry]

/-- C2: inside the request loop, a 401 clears the cached access token and
continues when attempts remain; a 429 or ≥500 continues when attempts
remain; any other non-2xx status (for example 400) throws its `ApiError` —
whose `status` is the response status and whose `isRetryable` is `false` —
at once, with no further dispatches and no backoff sleeps beyond the entry
of the failing attempt, which for a first attempt means none at all. -/
theorem C2_status_classification :
    (∀ (t : Int) (m : Nat) (now : Int) (auth : AuthResponse) (r a : Nat)
       (st : ClientState) (le : Option ApiError) (body : String)
       (rest : List FetchResult), a < m →
      requestGo t m now auth (r + 1) a st le (.response 401 body :: rest)
        = (let res := (requestGo t m now auth r (a + 1)
            (clearToken (attemptEntry now auth a st).1)
            (some ⟨401, body⟩) rest)
           { outcome := res.outcome,
             delays := (attemptEntry now auth a st).2.1 ++ res.delays,
             authCalls := (attemptEntry now auth a st).2.2 + res.authCalls,
             fetches := 1 + res.fetches, final := res.final })) ∧
    (∀ (t : Int) (m : Nat) (now : Int) (auth : AuthResponse) (r a : Nat)
       (st : ClientState) (le : Option ApiError) (status : Nat) (body : String)
       (rest : List FetchResult), (status = 429 ∨ 500 ≤ status) → a < m →
      requestGo t m now auth (r + 1) a st le (.response status body :: rest)
        = (let res := (requestGo t m now auth r (a + 1)
            (attemptEntry now auth a st).1 (some ⟨status, body⟩) rest)
           { outcome := res.outcome,
             delays := (attemptEntry now auth a st).2.1 ++ res.delays,
             authCalls := (attemptEntry now auth a st).2.2 + res.authCalls,
             fetches := 1 + res.fetches, final := res.final })) ∧
    (∀ (t : Int) (m : Nat) (now : Int) (auth : AuthResponse) (r a : Nat)
       (st : ClientState) (le : Option ApiError) (status : Nat) (body : String)
       (rest : List FetchResult),
       ¬(200 ≤ status ∧ status < 300) → status ≠ 401 →
       ¬(status = 429 ∨ 500 ≤ status) →
      requestGo t m now auth (r + 1) a st le (.response status body :: rest)
        = { outcome := .err (.api ⟨status, body⟩),
            delays := (attemptEntry now auth a st).2.1,
            authCalls := (attemptEntry now auth a st).2.2, fetches := 1,
            final := (attemptEntry now auth a st).1 }
        ∧ ApiError.isRetryable ⟨status, body⟩ = false) ∧
    (request 30000 2 0 authR validState [.response 400 "bad"]
      = { outcome := .err (.api ⟨400, "bad"⟩), delays := [], authCalls := 0,
          fetches := 1, final := validState }
      ∧ ApiError.isRetryable ⟨400, "bad"⟩ = false) := by
  refine ⟨?_, ?_, ?_, by decide, by decide⟩
  · intro t m now auth r a st le body rest hlt
    exact requestGo_401 t m now auth r a st le body rest hlt
  · intro t m now auth r a st le status body rest hs hlt
    exact requestGo_retryable t m now auth r a st le status body rest hs hlt
  · intro t m now auth r a st le status body rest hok h401 hretry
    refine ⟨requestGo_throw t m now auth r a st le status body rest ?_ ?_ ?_, ?_⟩
    · simp only [responseOk, decide_eq_false_iff_not]
      exact hok
    · rintro ⟨h, -⟩
      exact h401 h
    · rintro ⟨h, -⟩
      simp only [ApiError.isRetryable, Bool.or_eq_true, beq_iff_eq,
        decide_eq_true_eq] at h
      exact hretry h
    · simp only [ApiError.isRetryable, Bool.or_eq_false_iff, beq_eq_false_iff_ne,
        ne_eq, decide_eq_false_iff_not]
      omega

/-- Witness for C2 at concrete inputs: one 401-continue step, one
500-continue step, and a 400 immediate failure. -/
theorem C2_status_classification_witness :
    ((0 : Nat) < 2
      ∧ requestGo 30000 2 0 authR 2 0 validState none
          [.response 401 "x", .response 200 "ok"]
        = (let res := (requestGo 30000 2 0 authR 1 1
            (clearToken (attemptEntry 0 authR 0 validState).1)
            (some ⟨401, "x"⟩) [.response 200 "ok"])
           { outcome := res.outcome,
             delays := (attemptEntry 0 authR 0 validState).2.1 ++ res.delays,
             authCalls := (attemptEntry 0 authR 0 validState).2.2 + res.authCalls,
             fetches := 1 + res.fetches, final := res.final })) ∧
    (requestGo 30000 2 0 authR 2 0 validState none
          [.response 500 "x", .response 200 "ok"]
        = (let res := (requestGo 30000 2 0 authR 1 1
            (attemptEntry 0 authR 0 validState).1 (some ⟨500, "x"⟩)
            [.response 200 "ok"])
           { outcome := res.outcome,
             delays := (attemptEntry 0 authR 0 validState).2.1 ++ res.delays,
             authCalls := (attemptEntry 0 authR 0 validState).2.2 + res.authCalls,
             fetches := 1 + res.fetches, final := res.final })) ∧
    (requestGo 30000 2 0 authR 2 0 validState none [.response 400 "bad"]
        = { outcome := .err (.api ⟨400, "bad"⟩),
            delays := (attemptEntry 0 authR 0 validState).2.1,
            authCalls := (attemptEntry 0 authR 0 validState).2.2, fetches := 1,
            final := (attemptEntry 0 authR 0 validState).1 }
      ∧ ApiError.isRetryable ⟨400, "bad"⟩ = false) :=
  ⟨⟨by decide,
    C2_status_classification.1 30000 2 0 authR 1 0 validState none "x"
      [.response 200 "ok"] (by decide)⟩,
   C2_status_classification.2.1 30000 2 0 authR 1 0 validState none 500 "x"
      [.response 200 "ok"] (Or.inr (by decide)) (by decide),
   C2_status_classification.2.2.1 30000 2 0 authR 1 0 validState none 400 "bad"
      [] (by decide) (by decide) (by decide)⟩

/-- C4: a per-attempt timeout raises a `TimeoutError` carrying the configured
duration and propagates immediately out of `request`: whatever the number of
attempts remaining, no retry happens and no backoff sleep follows. -/
theorem C4_timeout_propagates :
    (∀ (t : Int) (m : Nat) (now : Int) (auth : AuthResponse) (r a : Nat)
       (st : ClientState) (le : Option ApiError) (rest : List FetchResult),
      requestGo t m now auth (r + 1) a st le (.timeout :: rest)
        = { outcome := .err (.timeoutErr t),
            delays := (attemptEntry now auth a st).2.1,
            authCalls := (attemptEntry now auth a st).2.2, fetches := 1,
            final := (attemptEntry now auth a st).1 }) ∧
    (request 30000 2 0 authR validState [.timeout, .response 200 "ok"]
      = { outcome := .err (.timeoutErr 30000), delays := [], authCalls := 0,
          fetches := 1, final := validState }) :=
  ⟨fun t m now auth r a st le rest =>
     requestGo_timeout t m now auth r a st le rest, by decide⟩

/-- Loop entry for `attempt = 0`: no sleep, no re-authentication. -/
theorem attemptEntry_zero (now : Int) (auth : AuthResponse) (st : ClientState) :
    attemptEntry now auth 0 st = (st, [], 0) := rfl

/-- Loop entry for `attempt = a + 1`: one sleep of `2 ^ a * 1000` ms, and a
re-authentication exactly when the token is stale. -/
theorem attemptEntry_succ (now : Int) (auth : AuthResponse) (a : Nat) (st : ClientState) :
    attemptEntry now auth (a + 1) st
      = (if isTokenValid now st then st else applyAuth auth st,
         [2 ^ a * 1000],
         if isTokenValid now st then 0 else 1) := by
  simp only [attemptEntry]
  rw [if_pos (Nat.succ_pos a)]
  split <;> simp

/-- Mock ran out (model artifact). -/
theorem requestGo_nil (t : Int) (m : Nat) (now : Int) (auth : AuthResponse)
    (r a : Nat) (st : ClientState) (le : Option ApiError) :
    requestGo t m now auth (r + 1) a st le []
      = { outcome := .stuck, delays := (attemptEntry now auth a st).2.1,
          authCalls := (attemptEntry now auth a st).2.2, fetches := 0,
          final := (attemptEntry now auth a st).1 } := rfl

/-- At most `r` dispatches happen in a loop with `r` iterations left. -/
theorem requestGo_fetches_le (t : Int) (m : Nat) (now : Int) (auth : AuthResponse) :
    ∀ (r a : Nat) (st : ClientState) (le : Option ApiError)
      (resps : List FetchResult),
      (requestGo t m now auth r a st le resps).fetches ≤ r := by
  intro r
  induction r with
  | zero =>
      intro a st le resps
      rw [requestGo_zero]
  | succ r ih =>
      intro a st le resps
      cases resps with
      | nil => rw [requestGo_nil]; simp
      | cons hd rest =>
        cases hd with
        | timeout => rw [requestGo_timeout]; simp
        | response status body =>
          by_cases hok : responseOk status = true
          · rw [requestGo_ok t m now auth r a st le status body rest hok]
            simp
          · rw [Bool.not_eq_true] at hok
            by_cases h401 : status = 401 ∧ a < m
            · obtain ⟨hs, hlt⟩ := h401
              subst hs
              rw [requestGo_401 t m now auth r a st le body rest hlt]
              show 1 + (requestGo t m now auth r (a + 1)
                  (clearToken (attemptEntry now auth a st).1)
                  (some ⟨401, body⟩) rest).fetches ≤ r + 1
              have h2 := ih (a + 1) (clearToken (attemptEntry now auth a st).1)
                (some ⟨401, body⟩) rest
              omega
            · by_cases hretry : ApiError.isRetryable ⟨status, body⟩ = true ∧ a < m
              · have hs : status = 429 ∨ 500 ≤ status := by
                  have h := hretry.1
                  simp only [ApiError.isRetryable, Bool.or_eq_true, beq_iff_eq,
                    decide_eq_true_eq] at h
                  exact h
                rw [requestGo_retryable t m now auth r a st le status body rest hs
                  hretry.2]
                show 1 + (requestGo t m now auth r (a + 1)
                    (attemptEntry now auth a st).1 (some ⟨status, body⟩)
                    rest).fetches ≤ r + 1
                have h2 := ih (a + 1) (attemptEntry now auth a st).1
                  (some ⟨status, body⟩) rest
                omega
              · rw [requestGo_throw t m now auth r a st le status body rest hok h401
                  hretry]
                simp

/-- Shifting one backoff delay out of a range of successive powers. -/
theorem range_map_pow_shift (a n : Nat) :
    (List.range (1 + n)).map (fun i => 2 ^ (a + i) * 1000)
      = 2 ^ a * 1000 :: (List.range n).map (fun i => 2 ^ (a + 1 + i) * 1000) := by
  rw [Nat.add_comm 1 n, List.range_succ_eq_map]
  rw [List.map_cons, List.map_map, Nat.add_zero]
  congr 1
  apply List.map_congr_left
  intro j hj
  show 2 ^ (a + Nat.succ j) * 1000 = 2 ^ (a + 1 + j) * 1000
  have hexp : a + Nat.succ j = a + 1 + j := by omega
  rw [hexp]

/-- Delay trace of a 401-continue step. -/
theorem requestGo_401_delays (t : Int) (m : Nat) (now : Int) (auth : AuthResponse)
    (r a : Nat) (st : ClientState) (le : Option ApiError) (body : String)
    (rest : List FetchResult) (hlt : a < m) :
    (requestGo t m now auth (r + 1) a st le (.response 401 body :: rest)).delays
      = (attemptEntry now auth a st).2.1 ++
          (requestGo t m now auth r (a + 1)
            (clearToken (attemptEntry now auth a st).1)
            (some ⟨401, body⟩) rest).delays := by
  rw [requestGo_401 t m now auth r a st le body rest hlt]

/-- Dispatch count of a 401-continue step. -/
theorem requestGo_401_fetches (t : Int) (m : Nat) (now : Int) (auth : AuthResponse)
    (r a : Nat) (st : ClientState) (le : Option ApiError) (body : String)
    (rest : List FetchResult) (hlt : a < m) :
    (requestGo t m now auth (r + 1) a st le (.response 401 body :: rest)).fetches
      = 1 + (requestGo t m now auth r (a + 1)
          (clearToken (attemptEntry now auth a st).1)
          (some ⟨401, body⟩) rest).fetches := by
  rw [requestGo_401 t m now auth r a st le body rest hlt]

/-- Delay trace of a retryable-continue step. -/
theorem requestGo_retryable_delays (t : Int) (m : Nat) (now : Int)
    (auth : AuthResponse) (r a : Nat) (st : ClientState) (le : Option ApiError)
    (status : Nat) (body : String) (rest : List FetchResult)
    (hs : status = 429 ∨ 500 ≤ status) (hlt : a < m) :
    (requestGo t m now auth (r + 1) a st le (.response status body :: rest)).delays
      = (attemptEntry now auth a st).2.1 ++
          (requestGo t m now auth r (a + 1) (attemptEntry now auth a st).1
            (some ⟨status, body⟩) rest).delays := by
  rw [requestGo_retryable t m now auth r a st le status body rest hs hlt]

/-- Dispatch count of a retryable-continue step. -/
theorem requestGo_retryable_fetches (t : Int) (m : Nat) (now : Int)
    (auth : AuthResponse) (r a : Nat) (st : ClientState) (le : Option ApiError)
    (status : Nat) (body : String) (rest : List FetchResult)
    (hs : status = 429 ∨ 500 ≤ status) (hlt : a < m) :
    (requestGo t m now auth (r + 1) a st le (.response status body :: rest)).fetches
      = 1 + (requestGo t m now auth r (a + 1) (attemptEntry now auth a st).1
          (some ⟨status, body⟩) rest).fetches := by
  rw [requestGo_retryable t m now auth r a st le status body rest hs hlt]

/-- A loop entered at attempt `a + 1` with enough mocked responses sleeps
`2 ^ (a + i) * 1000` ms before its `i`-th dispatched attempt, for every
dispatched attempt. -/
theorem requestGo_delays_succ (t : Int) (m : Nat) (now : Int) (auth : AuthResponse) :
    ∀ (r a : Nat) (st : ClientState) (le : Option ApiError)
      (resps : List FetchResult), r ≤ resps.length →
      (requestGo t m now auth r (a + 1) st le resps).delays
        = (List.range (requestGo t m now auth r (a + 1) st le resps).fetches).map
            (fun i => 2 ^ (a + i) * 1000) := by
  intro r
  induction r with
  | zero =>
      intro a st le resps hlen
      rw [requestGo_zero]
      simp
  | succ r ih =>
      intro a st le resps hlen
      cases resps with
      | nil => simp at hlen
      | cons hd rest =>
        have hlen' : r ≤ rest.length := by
          simpa using hlen
        cases hd with
        | timeout =>
            rw [requestGo_timeout, attemptEntry_succ]
            simp [List.range_succ]
        | response status body =>
          by_cases hok : responseOk status = true
          · rw [requestGo_ok t m now auth r (a + 1) st le status body rest hok,
              attemptEntry_succ]
            simp [List.range_succ]
          · rw [Bool.not_eq_true] at hok
            by_cases h401 : status = 401 ∧ a + 1 < m
            · obtain ⟨hs, hlt⟩ := h401
              subst hs
              rw [requestGo_401_delays t m now auth r (a + 1) st le body rest hlt,
                requestGo_401_fetches t m now auth r (a + 1) st le body rest hlt,
                ih (a + 1) (clearToken (attemptEntry now auth (a + 1) st).1)
                  (some ⟨401, body⟩) rest hlen',
                range_map_pow_shift, attemptEntry_succ]
              simp
            · by_cases hretry : ApiError.isRetryable ⟨status, body⟩ = true ∧ a + 1 < m
              · have hs : status = 429 ∨ 500 ≤ status := by
                  have h := hretry.1
                  simp only [ApiError.isRetryable, Bool.or_eq_true, beq_iff_eq,
                    decide_eq_true_eq] at h
                  exact h
                rw [requestGo_retryable_delays t m now auth r (a + 1) st le status
                    body rest hs hretry.2,
                  requestGo_retryable_fetches t m now auth r (a + 1) st le status
                    body rest hs hretry.2,
                  ih (a + 1) (attemptEntry now auth (a + 1) st).1
                    (some ⟨status, body⟩) rest hlen',
                  range_map_pow_shift, attemptEntry_succ]
                simp
              · rw [requestGo_throw t m now auth r (a + 1) st le status body rest
                  hok h401 hretry, attemptEntry_succ]
                simp [List.range_succ]

/-- A full loop (starting at attempt 0) with enough mocked responses sleeps
`2 ^ i * 1000` ms before each attempt after the first and nothing before the
first. -/
theorem requestGo_delays_zero (t : Int) (m : Nat) (now : Int) (auth : AuthResponse)
    (r : Nat) (st : ClientState) (le : Option ApiError) (resps : List FetchResult)
    (hlen : r + 1 ≤ resps.length) :
    (requestGo t m now auth (r + 1) 0 st le resps).delays
      = (List.range ((requestGo t m now auth (r + 1) 0 st le resps).fetches - 1)).map
          (fun i => 2 ^ i * 1000) := by
  cases resps with
  | nil => simp at hlen
  | cons hd rest =>
    have hlen' : r ≤ rest.length := by
      simpa using hlen
    cases hd with
    | timeout =>
        rw [requestGo_timeout, attemptEntry_zero]
        simp
    | response status body =>
      by_cases hok : responseOk status = true
      · rw [requestGo_ok t m now auth r 0 st le status body rest hok,
          attemptEntry_zero]
        simp
      · rw [Bool.not_eq_true] at hok
        by_cases h401 : status = 401 ∧ 0 < m
        · obtain ⟨hs, hlt⟩ := h401
          subst hs
          rw [requestGo_401_delays t m now auth r 0 st le body rest hlt,
            requestGo_401_fetches t m now auth r 0 st le body rest hlt,
            requestGo_delays_succ t m now auth r 0
              (clearToken (attemptEntry now auth 0 st).1) (some ⟨401, body⟩)
              rest hlen',
            attemptEntry_zero]
          simp
        · by_cases hretry : ApiError.isRetryable ⟨status, body⟩ = true ∧ 0 < m
          · have hs : status = 429 ∨ 500 ≤ status := by
              have h := hretry.1
              simp only [ApiError.isRetryable, Bool.or_eq_true, beq_iff_eq,
                decide_eq_true_eq] at h
              exact h
            rw [requestGo_retryable_delays t m now auth r 0 st le status body rest
                hs hretry.2,
              requestGo_retryable_fetches t m now auth r 0 st le status body rest
                hs hretry.2,
              requestGo_delays_succ t m now auth r 0 (attemptEntry now auth 0 st).1
                (some ⟨status, body⟩) rest hlen',
              attemptEntry_zero]
            simp
          · rw [requestGo_throw t m now auth r 0 st le status body rest hok h401
              hretry, attemptEntry_zero]
            simp

/-- C1: a request execution dispatches at most `maxRetries + 1` attempts
(attempts 0 to `maxRetries` inclusive), sleeping `2 ^ (i - 1)` seconds
(i.e. `2 ^ (i - 1) * 1000` ms) before every attempt `i > 0` and never before
attempt 0; with mocked responses `[500, 500, 200]` and `maxRetries = 2` the
call returns the parsed 200 body after exactly the two backoff delays of
1000 ms then 2000 ms, in that order. -/
theorem C1_retry_backoff :
    (∀ (t : Int) (m : Nat) (now : Int) (auth : AuthResponse) (st : ClientState)
       (resps : List FetchResult), m < resps.length →
      (request t m now auth st resps).delays
        = (List.range ((request t m now auth st resps).fetches - 1)).map
            (fun i => 2 ^ i * 1000)) ∧
    (∀ (t : Int) (m : Nat) (now : Int) (auth : AuthResponse) (st : ClientState)
       (resps : List FetchResult),
      (request t m now auth st resps).fetches ≤ m + 1) ∧
    (request 30000 2 0 authR validState
        [.response 500 "e1", .response 500 "e2", .response 200 "ok"]
      = { outcome := .ok "ok", delays := [1000, 2000], authCalls := 0, fetches := 3,
          final := validState }) := by
  refine ⟨?_, ?_, by decide⟩
  · intro t m now auth st resps hlen
    show (requestGo t m now auth (m + 1) 0 (ensureAuth now auth st).1 none
        resps).delays
      = (List.range ((requestGo t m now auth (m + 1) 0 (ensureAuth now auth st).1
          none resps).fetches - 1)).map (fun i => 2 ^ i * 1000)
    exact requestGo_delays_zero t m now auth m (ensureAuth now auth st).1 none
      resps hlen
  · intro t m now auth st resps
    show (requestGo t m now auth (m + 1) 0 (ensureAuth now auth st).1 none
        resps).fetches ≤ m + 1
    exact requestGo_fetches_le t m now auth (m + 1) 0 (ensureAuth now auth st).1
      none resps

/-- Witness for C1: the delay formula and the attempt bound instantiated at
the mocked `[500, 500, 200]` run. -/
theorem C1_retry_backoff_witness :
    ((2 : Nat) < 3 ∧
      (request 30000 2 0 authR validState
          [.response 500 "e1", .response 500 "e2", .response 200 "ok"]).delays
        = (List.range ((request 30000 2 0 authR validState
            [.response 500 "e1", .response 500 "e2", .response 200 "ok"]).fetches
              - 1)).map (fun i => 2 ^ i * 1000)) ∧
    (request 30000 2 0 authR validState
        [.response 500 "e1", .response 500 "e2", .response 200 "ok"]).fetches
      ≤ 3 :=
  ⟨⟨by decide,
    C1_retry_backoff.1 30000 2 0 authR validState
      [.response 500 "e1", .response 500 "e2", .response 200 "ok"] (by decide)⟩,
   C1_retry_backoff.2.1 30000 2 0 authR validState
      [.response 500 "e1", .response 500 "e2", .response 200 "ok"]⟩

/-! ## Step lemmas for the polling loop -/

/-- Budget exceeded: the loop throws the timeout error naming the id. -/
theorem wfc_timedOut (txnId : String) (i t : Int) (txns : List Transaction)
    (e : Int) (last : String) (h : ¬ e < t) :
    waitForCompletionGo txnId i t txns e last
      = { outcome := .timedOut
            s!"Transaction {txnId} did not complete within {t}ms",
          callbacks := [], polls := 0 } := by
  cases txns with
  | nil =>
      simp only [waitForCompletionGo]
      rw [if_neg h]
  | cons txn rest =>
      simp only [waitForCompletionGo]
      rw [if_neg h]

/-- A poll observing a terminal state returns at once, firing the callback
exactly when the state differs from the previously observed one. -/
theorem wfc_final (txnId : String) (i t : Int) (txn : Transaction)
    (rest : List Transaction) (e : Int) (last : String) (he : e < t)
    (hf : FINAL_STATES.contains txn.txnState = true) :
    waitForCompletionGo txnId i t (txn :: rest) e last
      = { outcome := .done txn,
          callbacks := if txn.txnState ≠ last then [txn.txnState] else [],
          polls := 1 } := by
  have hf' : txn.txnState ∈ FINAL_STATES := by
    simpa using hf
  simp only [waitForCompletionGo]
  rw [if_pos he]
  simp [hf']

/-- A poll observing a non-terminal state fires the callback exactly when
the state changed, then keeps polling with the observed state recorded. -/
theorem wfc_continue (txnId : String) (i t : Int) (txn : Transaction)
    (rest : List Transaction) (e : Int) (last : String) (he : e < t)
    (hf : FINAL_STATES.contains txn.txnState = false) :
    waitForCompletionGo txnId i t (txn :: rest) e last
      = { outcome := (waitForCompletionGo txnId i t rest (e + i)
            (if txn.txnState ≠ last then txn.txnState else last)).outcome,
          callbacks := (if txn.txnState ≠ last then [txn.txnState] else []) ++
            (waitForCompletionGo txnId i t rest (e + i)
              (if txn.txnState ≠ last then txn.txnState else last)).callbacks,
          polls := 1 + (waitForCompletionGo txnId i t rest (e + i)
            (if txn.txnState ≠ last then txn.txnState else last)).polls } := by
  have hf' : txn.txnState ∉ FINAL_STATES := by
    simpa using hf
  simp only [waitForCompletionGo]
  rw [if_pos he]
  simp [hf']

/-- Counterexample to C3: over the observed sequence
`quoted, srccreated, completed`, `waitForCompletion` invokes the callback
three times — including once for the first observed state `quoted`, because
`lastState` starts as `""` — not twice as claimed. -/
theorem C3_counterexample :
    (waitForCompletion "t1" 3000 300000
        [⟨"quoted"⟩, ⟨"srccreated"⟩, ⟨"completed"⟩]).callbacks
      = ["quoted", "srccreated", "completed"]
    ∧ ¬ (waitForCompletion "t1" 3000 300000
        [⟨"quoted"⟩, ⟨"srccreated"⟩, ⟨"completed"⟩]).callbacks.length = 2 := by
  decide

/-- C3 (amended): the callback fires exactly once per distinct observed
state — a poll observing the same state as the previous one fires nothing,
a poll observing a different state fires exactly once — and this includes
the first observed state, since the previously-observed marker starts as the
empty string; over `quoted → srccreated → completed` it therefore fires
exactly three times (quoted, srccreated, completed), returning on the
terminal state. -/
theorem C3_callback_per_change :
    (∀ (txnId : String) (i t : Int) (txn : Transaction) (rest : List Transaction)
       (e : Int) (last : String), e < t → txn.txnState = last →
       FINAL_STATES.contains txn.txnState = false →
      waitForCompletionGo txnId i t (txn :: rest) e last
        = { outcome := (waitForCompletionGo txnId i t rest (e + i) last).outcome,
            callbacks := (waitForCompletionGo txnId i t rest (e + i) last).callbacks,
            polls := 1 + (waitForCompletionGo txnId i t rest (e + i) last).polls }) ∧
    (∀ (txnId : String) (i t : Int) (txn : Transaction) (rest : List Transaction)
       (e : Int) (last : String), e < t → txn.txnState ≠ last →
      (waitForCompletionGo txnId i t (txn :: rest) e last).callbacks
        = txn.txnState ::
            (if FINAL_STATES.contains txn.txnState then []
             else (waitForCompletionGo txnId i t rest (e + i)
               txn.txnState).callbacks)) ∧
    (waitForCompletion "t1" 3000 300000
        [⟨"quoted"⟩, ⟨"srccreated"⟩, ⟨"completed"⟩]
      = { outcome := .done ⟨"completed"⟩,
          callbacks := ["quoted", "srccreated", "completed"], polls := 3 }) := by
  refine ⟨?_, ?_, by decide⟩
  · intro txnId i t txn rest e last he hsame hf
    rw [wfc_continue txnId i t txn rest e last he hf]
    simp [hsame]
  · intro txnId i t txn rest e last he hne
    by_cases hf : FINAL_STATES.contains txn.txnState = true
    · have hf' : txn.txnState ∈ FINAL_STATES := by
        simpa using hf
      rw [wfc_final txnId i t txn rest e last he hf]
      simp [hne, hf']
    · rw [Bool.not_eq_true] at hf
      have hf' : txn.txnState ∉ FINAL_STATES := by
        simpa using hf
      rw [wfc_continue txnId i t txn rest e last he hf]
      simp [hne, hf']

/-- Witness for C3 (amended): a same-state poll fires nothing, a changed
poll fires once, at concrete inputs. -/
theorem C3_callback_per_change_witness :
    (waitForCompletionGo "t1" 3000 300000 [⟨"quoted"⟩, ⟨"completed"⟩] 0 "quoted"
      = { outcome := (waitForCompletionGo "t1" 3000 300000 [⟨"completed"⟩]
            (0 + 3000) "quoted").outcome,
          callbacks := (waitForCompletionGo "t1" 3000 300000 [⟨"completed"⟩]
            (0 + 3000) "quoted").callbacks,
          polls := 1 + (waitForCompletionGo "t1" 3000 300000 [⟨"completed"⟩]
            (0 + 3000) "quoted").polls }) ∧
    ((waitForCompletionGo "t1" 3000 300000 [⟨"srccreated"⟩] 0 "quoted").callbacks
      = "srccreated" ::
          (if FINAL_STATES.contains "srccreated" then []
           else (waitForCompletionGo "t1" 3000 300000 [] (0 + 3000)
             "srccreated").callbacks)) :=
  ⟨C3_callback_per_change.1 "t1" 3000 300000 ⟨"quoted"⟩ [⟨"completed"⟩] 0 "quoted"
      (by decide) (by decide) (by decide),
   C3_callback_per_change.2.1 "t1" 3000 300000 ⟨"srccreated"⟩ [] 0 "quoted"
      (by decide) (by decide)⟩

/-- Counterexample to C5: the state `"failed"` is outside the claimed
five-element terminal set, yet `waitForCompletion` returns immediately on
observing it instead of continuing to poll. -/
theorem C5_counterexample :
    (waitForCompletion "t1" 3000 300000 [⟨"failed"⟩]).outcome = .done ⟨"failed"⟩
    ∧ (waitForCompletion "t1" 3000 300000 [⟨"failed"⟩]).polls = 1
    ∧ "failed" ∉
        (["completed", "expired", "rejected", "error", "usercanceled"] :
          List String) := by
  decide

/-- C5 (amended): within the time budget, `waitForCompletion` returns the
polled transaction immediately if and only if its state is in the local
`FINAL_STATES` list, which is exactly
`{completed, failed, expired, rejected, error, usercanceled}` — the five
states of the exported `FinalStates` constant plus `"failed"`. -/
theorem C5_terminal_states :
    (∀ (txnId : String) (i t : Int) (txn : Transaction) (rest : List Transaction)
       (e : Int) (last : String), e < t →
       FINAL_STATES.contains txn.txnState = true →
      waitForCompletionGo txnId i t (txn :: rest) e last
        = { outcome := .done txn,
            callbacks := if txn.txnState ≠ last then [txn.txnState] else [],
            polls := 1 }) ∧
    (∀ (txnId : String) (i t : Int) (txn : Transaction) (rest : List Transaction)
       (e : Int) (last : String), e < t →
       FINAL_STATES.contains txn.txnState = false →
      (waitForCompletionGo txnId i t (txn :: rest) e last).polls
        = 1 + (waitForCompletionGo txnId i t rest (e + i)
            (if txn.txnState ≠ last then txn.txnState else last)).polls) ∧
    (FINAL_STATES
      = ["completed", "failed", "expired", "rejected", "error", "usercanceled"]) ∧
    (FinalStates = ["completed", "expired", "rejected", "error", "usercanceled"]) ∧
    FINAL_STATES ≠ FinalStates := by
  refine ⟨?_, ?_, rfl, rfl, by decide⟩
  · intro txnId i t txn rest e last he hf
    exact wfc_final txnId i t txn rest e last he hf
  · intro txnId i t txn rest e last he hf
    rw [wfc_continue txnId i t txn rest e last he hf]

/-- Witness for C5 (amended): a terminal-state poll returns at once, a
non-terminal poll continues, at concrete inputs. -/
theorem C5_terminal_states_witness :
    (waitForCompletionGo "t1" 3000 300000 [⟨"expired"⟩, ⟨"quoted"⟩] 0 ""
      = { outcome := .done ⟨"expired"⟩, callbacks := ["expired"], polls := 1 }) ∧
    ((waitForCompletionGo "t1" 3000 300000 [⟨"quoted"⟩] 0 "").polls
      = 1 + (waitForCompletionGo "t1" 3000 300000 [] (0 + 3000)
          (if ("quoted" : String) ≠ "" then "quoted" else "")).polls) := by
  refine ⟨?_, ?_⟩
  · have h := C5_terminal_states.1 "t1" 3000 300000 ⟨"expired"⟩ [⟨"quoted"⟩] 0 ""
      (by decide) (by decide)
    rw [h]
    decide
  · exact C5_terminal_states.2.1 "t1" 3000 300000 ⟨"quoted"⟩ [] 0 ""
      (by decide) (by decide)

/-- C6: `ensureAuth` is a no-op — no authentication request, session
unchanged — whenever the token is valid (token and account present and
`now < expiresAt - 60000`), so two immediate successive calls issue at most
one authentication request provided a fresh token (one whose `expiredAt`
clears the buffer at `now`) is handed back by the endpoint. -/
theorem C6_ensureAuth_idempotent :
    (∀ (now : Int) (a : AuthResponse) (st : ClientState),
      isTokenValid now st = true → ensureAuth now a st = (st, 0)) ∧
    (∀ (now : Int) (a1 a2 : AuthResponse) (st : ClientState),
      now < a1.expiredAt - TOKEN_REFRESH_BUFFER_MS →
      (ensureAuth now a1 st).2
        + (ensureAuth now a2 (ensureAuth now a1 st).1).2 ≤ 1) := by
  constructor
  · intro now a st h
    simp [ensureAuth, h]
  · intro now a1 a2 st h
    by_cases hv : isTokenValid now st = true
    · simp [ensureAuth, hv]
    · have hva : isTokenValid now (applyAuth a1 st) = true := by
        simp [isTokenValid, applyAuth]
        exact h
      simp [ensureAuth, hv, hva]

/-- Witness for C6 at a concrete valid state and a concrete fresh response. -/
theorem C6_ensureAuth_idempotent_witness :
    ensureAuth 0 authR validState = (validState, 0) ∧
    (ensureAuth 0 authR ⟨none, none, 0⟩).2
      + (ensureAuth 0 authR (ensureAuth 0 authR ⟨none, none, 0⟩).1).2 ≤ 1 :=
  ⟨C6_ensureAuth_idempotent.1 0 authR validState (by decide),
   C6_ensureAuth_idempotent.2 0 authR authR ⟨none, none, 0⟩ (by decide)⟩

/-- C8: `subscribe` rejects a non-UUID identifier with a validation error
before any connection is made; for a conforming identifier it connects with
the caller-supplied timeout clamped into `[5000, 300000]` — out-of-range
values are clamped, never rejected. -/
theorem C8_subscribe_validation_and_clamp :
    (∀ (baseUrl id : String) (t : Int), uuidTest id = false →
      subscribe baseUrl id t = .error "Invalid transactionId: must be a UUID.") ∧
    (∀ (baseUrl id : String) (t : Int), uuidTest id = true →
      subscribe baseUrl id t
        = .ok { url := baseUrl ++ "/api/v2/events/stream?transactionId=" ++ id,
                effectiveTimeout := clampTimeout t }) ∧
    (∀ t : Int, 5000 ≤ clampTimeout t ∧ clampTimeout t ≤ 300000) ∧
    (∀ t : Int, 5000 ≤ t → t ≤ 300000 → clampTimeout t = t) ∧
    (∀ t : Int, t < 5000 → clampTimeout t = 5000) ∧
    (∀ t : Int, 300000 < t → clampTimeout t = 300000) := by
  refine ⟨?_, ?_, ?_, ?_, ?_, ?_⟩
  · intro baseUrl id t h
    simp [subscribe, h]
  · intro baseUrl id t h
    simp [subscribe, h]
  · intro t
    constructor
    · simp only [clampTimeout]
      omega
    · simp only [clampTimeout]
      omega
  · intro t h1 h2
    simp only [clampTimeout]
    omega
  · intro t h
    simp only [clampTimeout]
    omega
  · intro t h
    simp only [clampTimeout]
    omega

/-- Witness for C8: a malformed id is rejected, a canonical UUID connects,
and a too-small timeout is clamped up to the floor. -/
theorem C8_subscribe_witness :
    subscribe "https://api.neutron.me" "abc" 60000
      = .error "Invalid transactionId: must be a UUID." ∧
    subscribe "https://api.neutron.me" "5e25d2f4-9bca-4b7a-a1ad-2cf056100cb6" 1000
      = .ok { url := "https://api.neutron.me/api/v2/events/stream?transactionId=5e25d2f4-9bca-4b7a-a1ad-2cf056100cb6",
              effectiveTimeout := clampTimeout 1000 } ∧
    clampTimeout 1000 = 5000 :=
  ⟨C8_subscribe_validation_and_clamp.1 "https://api.neutron.me" "abc" 60000
      (by decide),
   C8_subscribe_validation_and_clamp.2.1 "https://api.neutron.me"
      "5e25d2f4-9bca-4b7a-a1ad-2cf056100cb6" 1000 (by decide),
   C8_subscribe_validation_and_clamp.2.2.2.2.1 1000 (by decide)⟩

/-- C9 (code bug): the source line `this.log("Authenticated", ...)` in
`authenticate` sits after `return result;`, so the successful-authentication
event is never written to the diagnostic stream, even with `debug = true` —
while indeed nothing at all is logged when debug is disabled.  The `logs`
trace of a successful authentication run is empty although the call
succeeds. -/
theorem C9_auth_event_never_logged :
    (∀ (ts : String) (raw : AuthRaw) (st : ClientState),
      (authenticate true ts (.ok raw) st).logs = []) ∧
    (∀ (ts : String) (raw : AuthRaw) (st : ClientState),
      (authenticate true ts (.ok raw) st).result = .ok raw.unwrap) ∧
    (∀ (ts message : String) (extra : Option String),
      log false ts message extra = []) :=
  ⟨fun _ _ _ => rfl, fun _ _ _ => rfl, fun _ _ _ => rfl⟩

/-- C10: `transactions.cancel` always throws the unavailability error, for
every transaction id, issuing no HTTP call and leaving the client state
untouched. -/
theorem C10_cancel_always_throws :
    ∀ (st : ClientState) (txnId : String),
      cancel st txnId
        = (st, [],
           .error "transactions.cancel() is not available. Unconfirmed transactions expire automatically.") :=
  fun _ _ => rfl

/-! ## Digest shape lemmas and the signature claims -/

/-- Each extracted byte of a word is below 256. -/
theorem wordToBytes_lt (w : Nat) : ∀ b ∈ wordToBytes w, b < 256 := by
  intro b hb
  simp only [wordToBytes, List.mem_cons, List.not_mem_nil, or_false] at hb
  rcases hb with h | h | h | h <;> subst h <;> exact Nat.mod_lt _ (by norm_num)

/-- SHA-256 digests are 32 bytes long. -/
theorem sha256_length (msg : List Nat) : (sha256 msg).length = 32 := by
  simp [sha256, wordToBytes]

/-- SHA-256 digest bytes are below 256. -/
theorem sha256_lt (msg : List Nat) : ∀ b ∈ sha256 msg, b < 256 := by
  intro b hb
  simp only [sha256, wordToBytes, List.mem_append, List.mem_cons,
    List.not_mem_nil, or_false] at hb
  rcases hb with h | h | h | h | h | h | h | h | h | h | h | h | h | h | h | h | h | h | h | h | h | h | h | h | h | h | h | h | h | h | h | h <;> omega

/-- HMAC-SHA256 digests are 32 bytes long. -/
theorem hmacSha256_length (key msg : List Nat) :
    (hmacSha256 key msg).length = 32 := by
  simp only [hmacSha256]
  exact sha256_length _

/-- HMAC-SHA256 digest bytes are below 256. -/
theorem hmacSha256_lt (key msg : List Nat) :
    ∀ b ∈ hmacSha256 key msg, b < 256 := by
  simp only [hmacSha256]
  exact sha256_lt _

/-- Counterexample to C7: `generateSignature` cannot be injective in the
payload — the digest ranges over a finite set (32 bytes) while payloads are
unbounded, so for the concrete key `"key"`-bytes and secret `"sec"`-bytes
two distinct payloads share a signature.  "Changing any one input changes
the output" is therefore false as a universal statement. -/
theorem C7_counterexample :
    ¬ ∀ p1 p2 : List Nat,
        generateSignature [107, 101, 121] [115, 101, 99] p1
          = generateSignature [107, 101, 121] [115, 101, 99] p2 → p1 = p2 := by
  intro hinj
  obtain ⟨x, y, hxy, hfeq⟩ := Finite.exists_ne_map_eq_of_infinite
    (fun n : Nat => (fun i : Fin 32 =>
      (⟨(hmacSha256 [115, 101, 99]
          (stringToSign [107, 101, 121] (List.replicate n 97))).getD i.1 0 % 256,
        Nat.mod_lt _ (by norm_num)⟩ : Fin 256)))
  have hdig : hmacSha256 [115, 101, 99]
        (stringToSign [107, 101, 121] (List.replicate x 97))
      = hmacSha256 [115, 101, 99]
        (stringToSign [107, 101, 121] (List.replicate y 97)) := by
    apply List.ext_getElem
    · rw [hmacSha256_length, hmacSha256_length]
    · intro i h1 h2
      have hl : i < 32 := by
        rw [hmacSha256_length] at h1
        exact h1
      have hv := congrArg Fin.val (congrFun hfeq ⟨i, hl⟩)
      dsimp only at hv
      rw [List.getD_eq_getElem _ _ h1, List.getD_eq_getElem _ _ h2] at hv
      have hb1 := hmacSha256_lt [115, 101, 99]
        (stringToSign [107, 101, 121] (List.replicate x 97)) _
        (List.getElem_mem h1)
      have hb2 := hmacSha256_lt [115, 101, 99]
        (stringToSign [107, 101, 121] (List.replicate y 97)) _
        (List.getElem_mem h2)
      rwa [Nat.mod_eq_of_lt hb1, Nat.mod_eq_of_lt hb2] at hv
  have hsig := hinj (List.replicate x 97) (List.replicate y 97)
    (by unfold generateSignature; rw [hdig])
  exact hxy (by simpa using congrArg List.length hsig)

/-- C7 (amended): the signature is the lowercase-hex HMAC-SHA256, keyed by
the API secret, of `{apiKey}&payload={payload}`; it is a deterministic pure
function of its three inputs, and changing the payload alone or the apiKey
alone always changes the string being MACed (the hex digest itself cannot
distinguish all inputs, its range being finite — see the counterexample). -/
theorem C7_signature :
    (∀ apiKey apiSecret payload : List Nat,
      generateSignature apiKey apiSecret payload
        = hexDigest (hmacSha256 apiSecret (apiKey ++ ampPayloadEq ++ payload))) ∧
    (∀ apiKey p1 p2 : List Nat,
      stringToSign apiKey p1 = stringToSign apiKey p2 → p1 = p2) ∧
    (∀ k1 k2 payload : List Nat,
      stringToSign k1 payload = stringToSign k2 payload → k1 = k2) := by
  refine ⟨fun _ _ _ => rfl, ?_, ?_⟩
  · intro k p1 p2 h
    simp only [stringToSign, List.append_assoc] at h
    exact List.append_cancel_left (List.append_cancel_left h)
  · intro k1 k2 p h
    simp only [stringToSign] at h
    exact List.append_cancel_right (List.append_cancel_right h)

/-- Witness for C7 (amended): the signature formula and the two
string-to-sign cancellation properties instantiated at concrete byte
strings. -/
theorem C7_signature_witness :
    generateSignature [107] [115] [112]
      = hexDigest (hmacSha256 [115] ([107] ++ ampPayloadEq ++ [112])) ∧
    ([112] : List Nat) = [112] ∧ ([107] : List Nat) = [107] :=
  ⟨C7_signature.1 [107] [115] [112],
   C7_signature.2.1 [107] [112] [112] rfl,
   C7_signature.2.2 [107] [107] [112] rfl⟩
